import Mathlib

/-!
Verification development for the Aura companion server.

Python floats are modelled as exact rationals (`ℚ`); dictionaries are
modelled as association lists or total functions over finite key types,
preserving the source's iteration order where it is observable.
-/

namespace Aura

/-- Modelled from the spec: `aura.models.emotion.EmotionVector` is not under
src/ (only its consumers are). The spec fixes 27 scalar fields grouped as
primary (9): love, joy, interest, trust, fear, sadness, anger, surprise,
disgust; cognitive (6): curiosity, confusion, certainty, doubt, fascination,
boredom; social (6): empathy, compassion, gratitude, pride, shame, envy;
aesthetic (6): awe, beauty, wonder, serenity, melancholy, nostalgia. -/
inductive Emotion where
  | love | joy | interest | trust | fear | sadness | anger | surprise | disgust
  | curiosity | confusion | certainty | doubt | fascination | boredom
  | empathy | compassion | gratitude | pride | shame | envy
  | awe | beauty | wonder | serenity | melancholy | nostalgia
deriving DecidableEq, Repr, Fintype

/-- Modelled from the spec: the 27 fields of an `EmotionVector` in their
declaration order (the order `model_dump` iterates them in). -/
def emotionList : List Emotion :=
  [.love, .joy, .interest, .trust, .fear, .sadness, .anger, .surprise, .disgust,
   .curiosity, .confusion, .certainty, .doubt, .fascination, .boredom,
   .empathy, .compassion, .gratitude, .pride, .shame, .envy,
   .awe, .beauty, .wonder, .serenity, .melancholy, .nostalgia]

/-- Modelled from the spec: an `EmotionVector` assigns each of the 27 fields a
scalar; the field constraint to [0,1] is tracked by the `InBounds` predicate. -/
def EmotionVector : Type := Emotion → ℚ

/-- All 27 fields lie in [0,1]. -/
def InBounds (v : EmotionVector) : Prop := ∀ e, 0 ≤ v e ∧ v e ≤ 1

/-- The Python field name of each emotion. -/
def emotionName : Emotion → String
  | .love => "love" | .joy => "joy" | .interest => "interest" | .trust => "trust"
  | .fear => "fear" | .sadness => "sadness" | .anger => "anger"
  | .surprise => "surprise" | .disgust => "disgust" | .curiosity => "curiosity"
  | .confusion => "confusion" | .certainty => "certainty" | .doubt => "doubt"
  | .fascination => "fascination" | .boredom => "boredom" | .empathy => "empathy"
  | .compassion => "compassion" | .gratitude => "gratitude" | .pride => "pride"
  | .shame => "shame" | .envy => "envy" | .awe => "awe" | .beauty => "beauty"
  | .wonder => "wonder" | .serenity => "serenity" | .melancholy => "melancholy"
  | .nostalgia => "nostalgia"

/-- `name in emotions` for the dictionary produced by `model_dump`: the key
set of that dictionary is exactly the 27 field names. -/
def emotionOfName : String → Option Emotion
  | "love" => some .love | "joy" => some .joy | "interest" => some .interest
  | "trust" => some .trust | "fear" => some .fear | "sadness" => some .sadness
  | "anger" => some .anger | "surprise" => some .surprise
  | "disgust" => some .disgust | "curiosity" => some .curiosity
  | "confusion" => some .confusion | "certainty" => some .certainty
  | "doubt" => some .doubt | "fascination" => some .fascination
  | "boredom" => some .boredom | "empathy" => some .empathy
  | "compassion" => some .compassion | "gratitude" => some .gratitude
  | "pride" => some .pride | "shame" => some .shame | "envy" => some .envy
  | "awe" => some .awe | "beauty" => some .beauty | "wonder" => some .wonder
  | "serenity" => some .serenity | "melancholy" => some .melancholy
  | "nostalgia" => some .nostalgia
  | _ => none

/-- Decay-rate categories (`physics.py` EMOTION_CATEGORIES values). -/
inductive Category where
  | primary | aesthetic | social | cognitive
deriving DecidableEq, Repr

/-- EMOTION_CATEGORIES from `physics.py` (every emotion is present, so the
`.get(emotion, "primary")` default never fires). -/
def category : Emotion → Category
  | .love => .primary | .joy => .primary | .interest => .primary
  | .trust => .primary | .fear => .primary | .sadness => .primary
  | .anger => .primary | .surprise => .primary | .disgust => .primary
  | .awe => .aesthetic | .beauty => .aesthetic | .wonder => .aesthetic
  | .serenity => .aesthetic | .melancholy => .aesthetic | .nostalgia => .aesthetic
  | .empathy => .social | .gratitude => .social | .pride => .social
  | .shame => .social | .envy => .social | .compassion => .social
  | .curiosity => .cognitive | .confusion => .cognitive | .certainty => .cognitive
  | .doubt => .cognitive | .fascination => .cognitive | .boredom => .cognitive

/-- Modelled from the spec: `aura.models.emotion.EmotionPhysicsConfig` is not
under src/. Per-category decay rates, an inertia value, and a baseline
vector; concrete numeric defaults are left open by the spec, so none are
fixed here. -/
structure EmotionPhysicsConfig where
  decay_rate_primary : ℚ
  decay_rate_aesthetic : ℚ
  decay_rate_social : ℚ
  decay_rate_cognitive : ℚ
  inertia_default : ℚ
  baseline : EmotionVector

/-- `self.decay_rates` lookup from `EmotionPhysics.__init__`. -/
def decayRates (cfg : EmotionPhysicsConfig) : Category → ℚ
  | .primary => cfg.decay_rate_primary
  | .aesthetic => cfg.decay_rate_aesthetic
  | .social => cfg.decay_rate_social
  | .cognitive => cfg.decay_rate_cognitive

/-- EMOTION_RELATIONSHIPS amplifies lists from `physics.py` (string keyed, as
in the source; note the "confidence" target under certainty, which is not a
field of the vector). -/
def amplifies : Emotion → List (String × ℚ)
  | .joy => [("interest", 0.3), ("trust", 0.2), ("curiosity", 0.3)]
  | .love => [("joy", 0.3), ("trust", 0.4), ("empathy", 0.3), ("compassion", 0.3)]
  | .interest => [("curiosity", 0.4), ("fascination", 0.3), ("wonder", 0.2)]
  | .trust => [("serenity", 0.2), ("certainty", 0.3)]
  | .fear => [("doubt", 0.3), ("confusion", 0.2)]
  | .sadness => [("melancholy", 0.4), ("nostalgia", 0.3)]
  | .anger => [("disgust", 0.2)]
  | .surprise => [("curiosity", 0.3), ("wonder", 0.2)]
  | .disgust => [("anger", 0.2)]
  | .curiosity => [("interest", 0.4), ("fascination", 0.3), ("wonder", 0.4)]
  | .confusion => [("doubt", 0.3), ("curiosity", 0.2)]
  | .certainty => [("confidence", 0.3), ("trust", 0.2)]
  | .doubt => [("confusion", 0.3), ("fear", 0.2)]
  | .fascination => [("curiosity", 0.4), ("wonder", 0.3), ("awe", 0.2)]
  | .boredom => []
  | .empathy => [("compassion", 0.4), ("love", 0.2)]
  | .compassion => [("empathy", 0.3), ("love", 0.3)]
  | .gratitude => [("joy", 0.3), ("love", 0.2)]
  | .pride => [("joy", 0.2), ("certainty", 0.2)]
  | .shame => [("sadness", 0.3)]
  | .envy => [("anger", 0.2), ("sadness", 0.2)]
  | .awe => [("wonder", 0.4), ("fascination", 0.3)]
  | .beauty => [("joy", 0.2), ("serenity", 0.3)]
  | .wonder => [("curiosity", 0.3), ("awe", 0.3), ("fascination", 0.3)]
  | .serenity => [("trust", 0.2), ("beauty", 0.2)]
  | .melancholy => [("sadness", 0.3), ("nostalgia", 0.3)]
  | .nostalgia => [("melancholy", 0.3), ("love", 0.2)]

/-- EMOTION_RELATIONSHIPS suppresses lists from `physics.py`. -/
def suppresses : Emotion → List (String × ℚ)
  | .joy => [("sadness", 0.4), ("fear", 0.3), ("doubt", 0.2)]
  | .love => [("anger", 0.3), ("fear", 0.2), ("disgust", 0.3)]
  | .interest => [("boredom", 0.5)]
  | .trust => [("fear", 0.3), ("doubt", 0.4)]
  | .fear => [("joy", 0.4), ("curiosity", 0.3), ("trust", 0.3)]
  | .sadness => [("joy", 0.4), ("interest", 0.3)]
  | .anger => [("love", 0.3), ("compassion", 0.3), ("serenity", 0.4)]
  | .surprise => [("boredom", 0.3), ("certainty", 0.2)]
  | .disgust => [("love", 0.3), ("beauty", 0.3)]
  | .curiosity => [("boredom", 0.5), ("certainty", 0.2)]
  | .confusion => [("certainty", 0.4)]
  | .certainty => [("doubt", 0.5), ("confusion", 0.4)]
  | .doubt => [("certainty", 0.4), ("trust", 0.3)]
  | .fascination => [("boredom", 0.5)]
  | .boredom => [("interest", 0.3), ("curiosity", 0.3), ("fascination", 0.3)]
  | .empathy => [("anger", 0.2), ("disgust", 0.2)]
  | .compassion => [("anger", 0.3), ("envy", 0.2)]
  | .gratitude => [("envy", 0.3), ("anger", 0.2)]
  | .pride => [("shame", 0.4)]
  | .shame => [("pride", 0.4), ("joy", 0.2)]
  | .envy => [("gratitude", 0.3), ("compassion", 0.2)]
  | .awe => [("boredom", 0.3)]
  | .beauty => [("disgust", 0.3)]
  | .wonder => [("boredom", 0.4)]
  | .serenity => [("anger", 0.3), ("fear", 0.3)]
  | .melancholy => [("joy", 0.2)]
  | .nostalgia => []

/-- Point update of a vector (the dictionary write `new_emotions[target] = x`). -/
def updateEmotion (st : EmotionVector) (t : Emotion) (x : ℚ) : EmotionVector :=
  fun e => if e = t then x else st e

/-- Step 1 of `EmotionPhysics.tick`: decay toward baseline. -/
def decayPass (cfg : EmotionPhysicsConfig) (current baseline : EmotionVector)
    (dt : ℚ) : EmotionVector :=
  fun e => current e + (baseline e - current e) * decayRates cfg (category e) * dt

/-- One iteration of step 2 of `tick` for a single emotion: skip if its value
is below 0.1, otherwise apply its amplifies then suppresses lists in order
(targets not among the vector fields, such as "confidence", are skipped). -/
def relationStep (dt : ℚ) (st : EmotionVector) (e : Emotion) : EmotionVector :=
  let value := st e
  if value < 0.1 then st
  else
    let st1 := (amplifies e).foldl (fun s p =>
      match emotionOfName p.1 with
      | some t => updateEmotion s t (min 1 (s t + value * p.2 * dt * 0.5))
      | none => s) st
    (suppresses e).foldl (fun s p =>
      match emotionOfName p.1 with
      | some t => updateEmotion s t (max 0 (s t - value * p.2 * dt * 0.5))
      | none => s) st1

/-- Step 2 of `tick`: the relationship pass, iterating the 27 emotions in
field order over a live dictionary (earlier iterations' writes are visible
to later ones, as in the Python `dict.items()` loop). -/
def relationPass (dt : ℚ) (st : EmotionVector) : EmotionVector :=
  emotionList.foldl (relationStep dt) st

/-- Step 3 of `tick`: inertia smoothing followed by the clamp to [0,1]. -/
def inertiaPass (cfg : EmotionPhysicsConfig) (current post : EmotionVector) :
    EmotionVector :=
  fun e => max 0 (min 1 (current e + (post e - current e) * (1 - cfg.inertia_default)))

/-- `EmotionPhysics.tick` from `physics.py`: decay, relationships, inertia. -/
def tick (cfg : EmotionPhysicsConfig) (current : EmotionVector) (dt : ℚ)
    (baseline : Option EmotionVector) : EmotionVector :=
  let b := baseline.getD cfg.baseline
  inertiaPass cfg current (relationPass dt (decayPass cfg current b dt))

/-- `EmotionPhysics.apply_influence` from `physics.py`: add `delta*intensity`
to each named emotion that is a field of the vector, clamping to [0,1];
other names are ignored. -/
def apply_influence (current : EmotionVector) (influence : List (String × ℚ))
    (intensity : ℚ) : EmotionVector :=
  influence.foldl (fun st p =>
    match emotionOfName p.1 with
    | some e => updateEmotion st e (max 0 (min 1 (st e + p.2 * intensity)))
    | none => st) current

/-- The all-zero vector. -/
def zeroVec : EmotionVector := fun _ => 0

/-- Fixed example configuration used only for witnesses (the spec leaves the
numeric defaults open, C5 pins only `decay_rate_primary` and `dt`). -/
def cfgEx : EmotionPhysicsConfig :=
  { decay_rate_primary := 0.2, decay_rate_aesthetic := 0.05,
    decay_rate_social := 0.08, decay_rate_cognitive := 0.1,
    inertia_default := 0.7, baseline := zeroVec }

theorem zeroVec_inBounds : InBounds zeroVec := by
  intro e; constructor <;> norm_num [zeroVec]

theorem apply_influence_inBounds (current : EmotionVector)
    (influence : List (String × ℚ)) (intensity : ℚ) (h : InBounds current) :
    InBounds (apply_influence current influence intensity) := by
  unfold apply_influence
  induction influence generalizing current with
  | nil => exact h
  | cons p rest ih =>
    simp only [List.foldl_cons]
    apply ih
    cases hm : emotionOfName p.1 with
    | none => simpa [hm] using h
    | some t =>
      intro e
      simp only [hm, updateEmotion]
      by_cases he : e = t
      · simp only [he, if_pos rfl]
        exact ⟨le_max_left _ _, max_le zero_le_one (min_le_left _ _)⟩
      · simpa [he] using h e

theorem tick_inBounds (cfg : EmotionPhysicsConfig) (current : EmotionVector)
    (dt : ℚ) (baseline : Option EmotionVector) :
    InBounds (tick cfg current dt baseline) := by
  intro e
  unfold tick inertiaPass
  exact ⟨le_max_left _ _, max_le zero_le_one (min_le_left _ _)⟩

/-- C1: under in-bounds inputs, both `EmotionPhysics.tick` and
`EmotionPhysics.apply_influence` return vectors whose 27 fields all lie in
[0,1]; applying an influence of +5.0 to joy with intensity 1.0 from the
all-zero vector yields joy exactly 1.0 (clamped), not 5.0. -/
theorem C1_vector_bounds_invariant (cfg : EmotionPhysicsConfig)
    (current baseline : EmotionVector) (hc : InBounds current)
    (hb : InBounds baseline) (influence : List (String × ℚ))
    (intensity dt : ℚ) (hi : 0 ≤ intensity ∧ intensity ≤ 2) (hdt : 0 ≤ dt) :
    InBounds (tick cfg current dt (some baseline)) ∧
    InBounds (apply_influence current influence intensity) ∧
    apply_influence zeroVec [("joy", 5)] 1 Emotion.joy = 1 := by
  refine ⟨tick_inBounds cfg current dt (some baseline),
    apply_influence_inBounds current influence intensity hc, ?_⟩
  show apply_influence zeroVec [("joy", 5)] 1 Emotion.joy = 1
  simp only [apply_influence, List.foldl_cons, List.foldl_nil, emotionOfName,
    updateEmotion, zeroVec, if_pos rfl]
  norm_num

theorem C1_witness :
    InBounds (tick cfgEx zeroVec 1 (some zeroVec)) ∧
    InBounds (apply_influence zeroVec [("joy", 5)] 1) ∧
    apply_influence zeroVec [("joy", 5)] 1 Emotion.joy = 1 :=
  C1_vector_bounds_invariant cfgEx zeroVec zeroVec zeroVec_inBounds
    zeroVec_inBounds [("joy", 5)] 1 1 ⟨by norm_num, by norm_num⟩ (by norm_num)

/-- C5: the decay pass of one `EmotionPhysics.tick` computes
`current[e] + (baseline[e] - current[e]) * decay_rate[category e] * dt` for
every emotion, before the relationship and inertia passes are applied (tick
is exactly the composition of the three passes); with
`decay_rate_primary = 0.2`, `dt = 1`, baseline joy 0 and current joy 0.5, the
decayed joy is exactly 0.4. -/
theorem C5_decay_pass (cfg : EmotionPhysicsConfig)
    (current baseline : EmotionVector) (dt : ℚ)
    (hrate : cfg.decay_rate_primary = 0.2) (hdt : dt = 1)
    (hbase : baseline Emotion.joy = 0) (hcur : current Emotion.joy = 0.5) :
    (∀ e, decayPass cfg current baseline dt e
        = current e + (baseline e - current e) * decayRates cfg (category e) * dt) ∧
    tick cfg current dt (some baseline)
        = inertiaPass cfg current (relationPass dt (decayPass cfg current baseline dt)) ∧
    decayPass cfg current baseline dt Emotion.joy = 0.4 := by
  refine ⟨fun e => rfl, rfl, ?_⟩
  simp only [decayPass, category, decayRates, hrate, hdt, hbase, hcur]
  norm_num

theorem C5_witness :
    decayPass cfgEx (updateEmotion zeroVec Emotion.joy 0.5) zeroVec 1 Emotion.joy
      = 0.4 :=
  (C5_decay_pass cfgEx (updateEmotion zeroVec Emotion.joy 0.5) zeroVec 1
    rfl rfl rfl (by simp [updateEmotion, zeroVec])).2.2

/-- The mutable numeric fields of a stored rule record, as read and written
by `LearningEngine.update_rule_confidence` (`engine.py`). -/
structure RuleData where
  application_count : ℕ
  success_count : ℕ
  fail_count : ℕ
  confidence : ℚ
  avg_resolution_time : ℚ
  deprecated : Bool
deriving DecidableEq, Repr

/-- The state transformation `LearningEngine.update_rule_confidence` applies
to an existing rule record: increment the counters, recompute
`confidence = (success_count + 1) / (application_count + 2)` from the
incremented counts, optionally update the running mean of resolution time,
and merge `deprecated = true` when the new confidence is below 0.4 and the
incremented application count exceeds 10. -/
def update_rule_confidence (r : RuleData) (success : Bool)
    (resolution_time : Option ℚ) : RuleData :=
  let application_count := r.application_count + 1
  let success_count := r.success_count + (if success then 1 else 0)
  let fail_count := r.fail_count + (if success then 0 else 1)
  let new_confidence : ℚ :=
    ((success_count : ℚ) + 1) / ((application_count : ℚ) + 2)
  let avg : ℚ :=
    match resolution_time with
    | some rt =>
        (r.avg_resolution_time * ((application_count : ℚ) - 1) + rt)
          / (application_count : ℚ)
    | none => r.avg_resolution_time
  let dep : Bool :=
    if new_confidence < 0.4 ∧ application_count > 10 then true else r.deprecated
  { application_count := application_count, success_count := success_count,
    fail_count := fail_count, confidence := new_confidence,
    avg_resolution_time := avg, deprecated := dep }

/-- C2: `update_rule_confidence` increments `application_count` and exactly
one of `success_count`/`fail_count`, sets
`confidence = (success_count + 1) / (application_count + 2)` over the
incremented counts, and marks a (not already deprecated) rule deprecated
exactly when that confidence is below 0.4 and the incremented
`application_count` exceeds 10; a rule with counts (10, 1) receiving one
more failure gets confidence 2/13 and is deprecated, while a brand-new rule
receiving one success gets confidence 2/3. -/
theorem C2_rule_confidence_update (r : RuleData) (success : Bool)
    (rt : Option ℚ) (hdep : r.deprecated = false) :
    (update_rule_confidence r success rt).application_count
        = r.application_count + 1 ∧
    (update_rule_confidence r success rt).success_count
        = r.success_count + (if success then 1 else 0) ∧
    (update_rule_confidence r success rt).fail_count
        = r.fail_count + (if success then 0 else 1) ∧
    (update_rule_confidence r success rt).confidence
        = (((update_rule_confidence r success rt).success_count : ℚ) + 1)
            / (((update_rule_confidence r success rt).application_count : ℚ) + 2) ∧
    ((update_rule_confidence r success rt).deprecated = true
        ↔ ((update_rule_confidence r success rt).confidence < 0.4
            ∧ (update_rule_confidence r success rt).application_count > 10)) ∧
    (update_rule_confidence ⟨10, 1, 9, 2/13, 0, false⟩ false none).confidence
        = 2/13 ∧
    (update_rule_confidence ⟨10, 1, 9, 2/13, 0, false⟩ false none).deprecated
        = true ∧
    (update_rule_confidence ⟨0, 0, 0, 1/2, 0, false⟩ true none).confidence
        = 2/3 := by
  refine ⟨rfl, rfl, rfl, rfl, ?_, by norm_num [update_rule_confidence],
    by norm_num [update_rule_confidence], by norm_num [update_rule_confidence]⟩
  simp only [update_rule_confidence, hdep]
  split_ifs <;> simp_all

theorem C2_witness :
    (update_rule_confidence ⟨10, 1, 9, 2/13, 0, false⟩ false none).confidence
        = 2/13 ∧
    (update_rule_confidence ⟨10, 1, 9, 2/13, 0, false⟩ false none).deprecated
        = true ∧
    (update_rule_confidence ⟨0, 0, 0, 1/2, 0, false⟩ true none).confidence
        = 2/3 := by
  have h := C2_rule_confidence_update ⟨10, 1, 9, 2/13, 0, false⟩ false none rfl
  exact ⟨h.2.2.2.2.2.1, h.2.2.2.2.2.2.1, h.2.2.2.2.2.2.2⟩

/-- The connection state of `DatabaseClient` (`db/client.py`): the optional
underlying connection object and the `_connected` flag. -/
structure DatabaseClient where
  _client : Option Unit
  _connected : Bool
deriving DecidableEq, Repr

/-- `DatabaseClient.__init__`: no connection object, not connected. -/
def DatabaseClient.init : DatabaseClient :=
  { _client := none, _connected := false }

/-- The `is_connected` property. -/
def DatabaseClient.is_connected (s : DatabaseClient) : Bool :=
  s._connected && s._client.isSome

/-- `DatabaseClient.connect`, successful path: if already connected it only
warns and returns; otherwise it creates the client, signs in, and sets
`_connected = True`. -/
def DatabaseClient.connect (s : DatabaseClient) : DatabaseClient :=
  if s._connected then s else { _client := some (), _connected := true }

/-- `DatabaseClient.close`: closes and clears `_connected` only when both a
client exists and `_connected` holds; the `_client` attribute itself is
never reset to `None`. -/
def DatabaseClient.close (s : DatabaseClient) : DatabaseClient :=
  if s._client.isSome && s._connected then { s with _connected := false } else s

/-- Outcome of invoking a data operation: either the guard raises the
"Database not connected" RuntimeError, or the call reaches the underlying
connection object. -/
inductive OpOutcome where
  | raisedNotConnected
  | reachedConnection
deriving DecidableEq, Repr

/-- Shared guard of the six data operations: `if not self._client: raise
RuntimeError("Database not connected")`. -/
def dataOpGuard (s : DatabaseClient) : OpOutcome :=
  if s._client.isNone then .raisedNotConnected else .reachedConnection

/-- `DatabaseClient.query`. -/
def DatabaseClient.query (s : DatabaseClient) : OpOutcome := dataOpGuard s

/-- `DatabaseClient.select`. -/
def DatabaseClient.select (s : DatabaseClient) : OpOutcome := dataOpGuard s

/-- `DatabaseClient.create`. -/
def DatabaseClient.create (s : DatabaseClient) : OpOutcome := dataOpGuard s

/-- `DatabaseClient.update`. -/
def DatabaseClient.update (s : DatabaseClient) : OpOutcome := dataOpGuard s

/-- `DatabaseClient.merge`. -/
def DatabaseClient.merge (s : DatabaseClient) : OpOutcome := dataOpGuard s

/-- `DatabaseClient.delete`. -/
def DatabaseClient.delete (s : DatabaseClient) : OpOutcome := dataOpGuard s

/-- C4 counterexample: after `connect` followed by `close` the client reports
not connected, yet `query` does not raise the "not connected" error — it
reaches the underlying connection, because the guard tests `_client` (still
set) rather than the connected flag. This refutes the claim that every data
operation raises "not connected" after `close`. -/
theorem C4_counterexample :
    (DatabaseClient.init.connect.close).is_connected = false ∧
    (DatabaseClient.init.connect.close).query = OpOutcome.reachedConnection := by
  constructor <;> rfl

/-- C4 (amended): every data operation raises the "not connected" error
exactly when `_client` is unset, i.e. before any successful `connect`; in
that case it does not reach the underlying connection. After `close`,
`_client` is still set, so the operations do not raise and instead reach the
underlying (closed) connection. -/
theorem C4_not_connected_guard (s : DatabaseClient) :
    (s.query = OpOutcome.raisedNotConnected ↔ s._client = none) ∧
    s.select = s.query ∧ s.create = s.query ∧ s.update = s.query ∧
    s.merge = s.query ∧ s.delete = s.query ∧
    DatabaseClient.init.query = OpOutcome.raisedNotConnected ∧
    (DatabaseClient.init.connect.close).query = OpOutcome.reachedConnection := by
  refine ⟨?_, rfl, rfl, rfl, rfl, rfl, rfl, rfl⟩
  unfold DatabaseClient.query dataOpGuard
  cases h : s._client with
  | none => simp [h]
  | some c => simp [h]

/-- Python `str.split()` with no separator: split on runs of whitespace,
discarding empty pieces (helper recursion over the character list, carrying
the current word reversed). -/
def splitWhitespaceAux : List Char → List Char → List String
  | [], acc => if acc.isEmpty then [] else [String.mk acc.reverse]
  | c :: rest, acc =>
    if c.isWhitespace then
      if acc.isEmpty then splitWhitespaceAux rest []
      else String.mk acc.reverse :: splitWhitespaceAux rest []
    else splitWhitespaceAux rest (c :: acc)

/-- `query.split()` as used by `LLMLayers.analyze_complexity`. -/
def pySplit (s : String) : List String := splitWhitespaceAux s.toList []

/-- `LLMLayers.analyze_complexity` (`llm/layers.py`): word-count heuristic. -/
def analyze_complexity (query : String) : ℚ :=
  let word_count := (pySplit query).length
  if word_count < 5 then 0.2
  else if word_count < 15 then 0.4
  else if word_count < 30 then 0.6
  else 0.8

/-- `LLMLayers.select_layer` (`llm/layers.py`). -/
def select_layer (query : String) (emotional_depth_needed : Bool) : String :=
  let complexity := analyze_complexity query
  if complexity < 0.3 ∧ emotional_depth_needed = false then "L1"
  else if complexity > 0.7 ∨ emotional_depth_needed = true then "L3+L2"
  else "L3"

/-- A 35-word query used by the C7 example. -/
def query35 : String := String.intercalate " " (List.replicate 35 "w")

/-- A 10-word query used by the C7 example. -/
def query10 : String := String.intercalate " " (List.replicate 10 "w")

/-- C7: `select_layer` returns "L1" exactly when complexity is below 0.3 and
no emotional depth is needed, "L3+L2" exactly when complexity exceeds 0.7 or
emotional depth is needed, and "L3" otherwise, with `analyze_complexity`
mapping word counts below 5/15/30 to 0.2/0.4/0.6 and 0.8 otherwise; "hi
there" with no depth gives "L1", a 35-word query gives "L3+L2" under either
flag, and a 10-word query with no depth gives "L3". -/
theorem C7_layer_selection (query : String) (d : Bool) :
    (select_layer query d = "L1"
        ↔ (analyze_complexity query < 0.3 ∧ d = false)) ∧
    (select_layer query d = "L3+L2"
        ↔ (analyze_complexity query > 0.7 ∨ d = true)) ∧
    (select_layer query d = "L3"
        ↔ (¬ analyze_complexity query < 0.3 ∧ ¬ analyze_complexity query > 0.7
            ∧ d = false)) ∧
    ((pySplit query).length < 5 → analyze_complexity query = 0.2) ∧
    ((pySplit query).length ≥ 5 → (pySplit query).length < 15
        → analyze_complexity query = 0.4) ∧
    ((pySplit query).length ≥ 15 → (pySplit query).length < 30
        → analyze_complexity query = 0.6) ∧
    ((pySplit query).length ≥ 30 → analyze_complexity query = 0.8) ∧
    select_layer "hi there" false = "L1" ∧
    select_layer query35 false = "L3+L2" ∧
    select_layer query35 true = "L3+L2" ∧
    select_layer query10 false = "L3" := by
  have hcases : analyze_complexity query = 0.2 ∨ analyze_complexity query = 0.4
      ∨ analyze_complexity query = 0.6 ∨ analyze_complexity query = 0.8 := by
    unfold analyze_complexity
    dsimp only
    split_ifs <;> simp
  have h2 : (pySplit "hi there").length = 2 := rfl
  have h35 : (pySplit query35).length = 35 := rfl
  have h10 : (pySplit query10).length = 10 := rfl
  refine ⟨?_, ?_, ?_, ?_, ?_, ?_, ?_,
    by unfold select_layer analyze_complexity; dsimp only; rw [h2]; norm_num,
    by unfold select_layer analyze_complexity; dsimp only; rw [h35]; norm_num,
    by unfold select_layer analyze_complexity; dsimp only; rw [h35]; norm_num,
    by unfold select_layer analyze_complexity; dsimp only; rw [h10]; norm_num⟩
  · unfold select_layer
    rcases hcases with h | h | h | h <;> rw [h] <;> cases d <;> dsimp only <;>
      split_ifs <;> simp_all <;> norm_num at *
  · unfold select_layer
    rcases hcases with h | h | h | h <;> rw [h] <;> cases d <;> dsimp only <;>
      split_ifs <;> simp_all <;> norm_num at *
  · unfold select_layer
    rcases hcases with h | h | h | h <;> rw [h] <;> cases d <;> dsimp only <;>
      split_ifs <;> simp_all <;> norm_num at *
  · intro h; unfold analyze_complexity; dsimp only; rw [if_pos h]
  · intro h1 h2; unfold analyze_complexity; dsimp only
    rw [if_neg (by omega), if_pos h2]
  · intro h1 h2; unfold analyze_complexity; dsimp only
    rw [if_neg (by omega), if_neg (by omega), if_pos h2]
  · intro h; unfold analyze_complexity; dsimp only
    rw [if_neg (by omega), if_neg (by omega), if_neg (by omega)]

/-- Modelled from the spec: `aura.models.goal.Goal` is not under src/ (only
the Goal Engine that consumes it is). Fields per spec section 3; timestamps
are epoch seconds as rationals; the `emotional_alignment` map and the
`metadata` map are association lists. -/
structure Goal where
  goal_id : String
  name : String
  description : String
  goal_type : String
  priority : ℚ
  origin : String
  emotional_alignment : List (String × ℚ)
  status : String
  progress : ℚ
  created : ℚ
  updated : ℚ
  completed : Option ℚ
  metadata : List (String × String)
deriving DecidableEq, Repr

/-- Modelled from the spec: the default `status` of a newly constructed Goal
is left open by the spec (section 9); "active" is chosen here, and no claim
depends on the choice. -/
def newGoalStatus : String := "active"

/-- The `goal_templates` table of `GoalEngine.formulate_goal`
(`goal/engine.py`): name, description, type, priority per trigger. -/
def goalTemplate : String → Option (String × String × String × ℚ)
  | "boredom" => some ("Explore interesting topic",
      "Research a topic I haven\x27t explored recently", "curiosity_driven", 0.6)
  | "idle_exploration" => some ("Review recent learnings",
      "Analyze patterns from recent experiences", "learning_gap", 0.5)
  | "curiosity" => some ("Deep dive investigation",
      "Investigate an intriguing pattern", "curiosity_driven", 0.7)
  | _ => none

/-- `GoalEngine.formulate_goal` on its success path (database create
succeeds): look up the trigger's template, build the Goal with origin
`autonomous_{trigger}`, persist it and append it to the in-memory list;
unknown triggers return without appending. The random 12-hex-character
identifier is abstracted as the `gid` argument, and the wall clock as `now`. -/
def formulate_goal (goals : List Goal) (trigger : String)
    (emotions : List (String × ℚ)) (now : ℚ) (gid : String) : List Goal :=
  match goalTemplate trigger with
  | none => goals
  | some (n, d, t, p) =>
      goals ++ [{ goal_id := gid, name := n, description := d, goal_type := t,
                  priority := p, origin := "autonomous_" ++ trigger,
                  emotional_alignment := emotions, status := newGoalStatus,
                  progress := 0, created := now, updated := now,
                  completed := none, metadata := [] }]

/-- `GoalEngine._consider_new_goal` (`goal/engine.py`): skip if 3 or more
goals in the in-memory list are active, or if some goal in the list with
origin `autonomous_{trigger}` was created within the last 3600 seconds;
otherwise formulate a new goal. -/
def consider_new_goal (goals : List Goal) (trigger : String)
    (emotions : List (String × ℚ)) (now : ℚ) (gid : String) : List Goal :=
  let active_count := (goals.filter (fun g => g.status == "active")).length
  if active_count ≥ 3 then goals
  else
    let recent := goals.filter (fun g =>
      g.origin == "autonomous_" ++ trigger && decide (now - g.created < 3600))
    if ¬ recent.isEmpty then goals
    else formulate_goal goals trigger emotions now gid

/-- The in-place mutation `GoalEngine.update_goal_progress` performs on the
goal it finds: set progress and updated; once progress reaches 1.0 also set
status completed and stamp the completion time. -/
def updateMatchedGoal (g : Goal) (progress now : ℚ) : Goal :=
  let g1 := { g with progress := progress, updated := now }
  if progress ≥ 1 then { g1 with status := "completed", completed := some now }
  else g1

/-- `GoalEngine.update_goal_progress`: find the first goal with the given id
in the in-memory list, mutate it in place, and stop (the Python loop
breaks); the list itself gains and loses no element. -/
def update_goal_progress : List Goal → String → ℚ → ℚ → List Goal
  | [], _, _, _ => []
  | g :: rest, gid, p, now =>
    if g.goal_id == gid then updateMatchedGoal g p now :: rest
    else g :: update_goal_progress rest gid p now

/-- The in-place mutation `GoalEngine.cancel_goal` performs: set status
cancelled, stamp updated, and record the reason in metadata. -/
def cancelMatchedGoal (g : Goal) (reason : String) (now : ℚ) : Goal :=
  { g with status := "cancelled", updated := now,
           metadata := g.metadata ++ [("cancellation_reason", reason)] }

/-- `GoalEngine.cancel_goal`: find the first goal with the given id, mutate
it in place, and stop. -/
def cancel_goal : List Goal → String → String → ℚ → List Goal
  | [], _, _, _ => []
  | g :: rest, gid, reason, now =>
    if g.goal_id == gid then cancelMatchedGoal g reason now :: rest
    else g :: cancel_goal rest gid reason now

/-- `GoalContext` as returned by `GoalEngine.get_goal_context`. -/
structure GoalContext where
  active_goals : List Goal
  current_focus : Option Goal
deriving DecidableEq, Repr

/-- Python `max(active, key=lambda g: g.priority)`: the first goal attaining
the maximal priority (later goals replace the accumulator only when strictly
greater). -/
def maxByPriority : List Goal → Option Goal
  | [] => none
  | g :: rest =>
      some (rest.foldl (fun acc x => if x.priority > acc.priority then x else acc) g)

/-- `GoalEngine.get_goal_context`: the first five entries of the in-memory
list (whatever their status) as `active_goals`, and the highest-priority
goal among those with status active as `current_focus`. -/
def get_goal_context (goals : List Goal) : GoalContext :=
  let current_focus :=
    if goals.isEmpty then none
    else maxByPriority (goals.filter (fun g => g.status == "active"))
  { active_goals := goals.take 5, current_focus := current_focus }

/-- C6: `_consider_new_goal(trigger)` for the three known triggers creates no
goal when 3 or more goals in the in-memory list are active or a same-origin
goal was created within the last 3600 seconds; with fewer than 3 active
goals and every same-origin goal at least an hour old, a goal with origin
`autonomous_{trigger}` created now is appended. -/
theorem C6_goal_throttling (goals : List Goal) (trigger : String)
    (emotions : List (String × ℚ)) (now : ℚ) (gid : String)
    (ht : trigger = "boredom" ∨ trigger = "idle_exploration"
        ∨ trigger = "curiosity") :
    ((goals.filter (fun g => g.status == "active")).length ≥ 3 →
        consider_new_goal goals trigger emotions now gid = goals) ∧
    ((∃ g ∈ goals, g.origin = "autonomous_" ++ trigger ∧ now - g.created < 3600)
        → consider_new_goal goals trigger emotions now gid = goals) ∧
    ((goals.filter (fun g => g.status == "active")).length < 3 →
      (∀ g ∈ goals, g.origin = "autonomous_" ++ trigger → now - g.created ≥ 3600)
      → ∃ ng, consider_new_goal goals trigger emotions now gid = goals ++ [ng]
          ∧ ng.origin = "autonomous_" ++ trigger ∧ ng.created = now) := by
  refine ⟨?_, ?_, ?_⟩
  · intro h
    unfold consider_new_goal
    dsimp only
    rw [if_pos h]
  · rintro ⟨g, hg, ho, htime⟩
    unfold consider_new_goal
    dsimp only
    split_ifs with h1 h2
    · rfl
    · exfalso
      have hmem : g ∈ goals.filter (fun g =>
          g.origin == "autonomous_" ++ trigger
            && decide (now - g.created < 3600)) := by
        rw [List.mem_filter]
        exact ⟨hg, by simp [ho, htime]⟩
      rw [List.isEmpty_iff] at h2
      rw [h2] at hmem
      exact absurd hmem (List.not_mem_nil g)
    · rfl
  · intro hcount hall
    have hne : ¬ (goals.filter (fun g => g.status == "active")).length ≥ 3 := by
      omega
    have hempty : (goals.filter (fun g =>
        g.origin == "autonomous_" ++ trigger
          && decide (now - g.created < 3600))).isEmpty = true := by
      rw [List.isEmpty_iff, List.filter_eq_nil_iff]
      intro g hg
      simp only [Bool.and_eq_true, beq_iff_eq, decide_eq_true_eq, not_and]
      intro ho
      exact not_lt.mpr (hall g hg ho)
    unfold consider_new_goal
    dsimp only
    rw [if_neg hne, if_neg (by simp [hempty])]
    rcases ht with h | h | h <;> subst h <;>
      exact ⟨_, rfl, rfl, rfl⟩

/-- Concrete scenario for the C6 witness: one active boredom-origin goal
created at time 0, considered again 61 minutes later. -/
def staleBoredomGoal : Goal :=
  { goal_id := "goal:old", name := "Explore interesting topic",
    description := "", goal_type := "curiosity_driven", priority := 1,
    origin := "autonomous_boredom", emotional_alignment := [],
    status := "active", progress := 0, created := 0, updated := 0,
    completed := none, metadata := [] }

theorem C6_witness :
    ∃ ng, consider_new_goal [staleBoredomGoal] "boredom" [] 3660 "goal:new"
        = [staleBoredomGoal] ++ [ng]
      ∧ ng.origin = "autonomous_" ++ "boredom" ∧ ng.created = 3660 :=
  (C6_goal_throttling [staleBoredomGoal] "boredom" [] 3660 "goal:new"
    (Or.inl rfl)).2.2
    (by norm_num [staleBoredomGoal])
    (by intro g hg ho
        simp only [List.mem_singleton] at hg
        subst hg
        norm_num [staleBoredomGoal])

/-- A completed goal used by the C10 demonstration. -/
def demoCompleted : Goal :=
  { goal_id := "goal:done", name := "finished goal", description := "",
    goal_type := "curiosity_driven", priority := 1,
    origin := "autonomous_boredom", emotional_alignment := [],
    status := "completed", progress := 1, created := 0, updated := 0,
    completed := some 0, metadata := [] }

/-- An active goal used by the C10 demonstration. -/
def demoActive : Goal :=
  { goal_id := "goal:act", name := "ongoing goal", description := "",
    goal_type := "learning_gap", priority := 0,
    origin := "autonomous_idle_exploration", emotional_alignment := [],
    status := "active", progress := 0, created := 0, updated := 0,
    completed := none, metadata := [] }

/-- The demonstration in-memory goal list: a completed goal ahead of an
active one. -/
def demoGoals : List Goal := [demoCompleted, demoActive]

theorem update_goal_progress_ids (goals : List Goal) (gid : String) (p now : ℚ) :
    (update_goal_progress goals gid p now).map Goal.goal_id
      = goals.map Goal.goal_id := by
  induction goals with
  | nil => rfl
  | cons g rest ih =>
    unfold update_goal_progress
    split_ifs with h
    · have hid : (updateMatchedGoal g p now).goal_id = g.goal_id := by
        unfold updateMatchedGoal
        split_ifs <;> rfl
      simp [hid]
    · simp [ih]

theorem cancel_goal_ids (goals : List Goal) (gid reason : String) (now : ℚ) :
    (cancel_goal goals gid reason now).map Goal.goal_id
      = goals.map Goal.goal_id := by
  induction goals with
  | nil => rfl
  | cons g rest ih =>
    unfold cancel_goal
    split_ifs with h
    · simp [cancelMatchedGoal]
    · simp [ih]

theorem maxByPriority_mem (goals : List Goal) (g : Goal)
    (h : maxByPriority goals = some g) : g ∈ goals := by
  cases goals with
  | nil => exact absurd h (by simp [maxByPriority])
  | cons a rest =>
    simp only [maxByPriority, Option.some.injEq] at h
    subst h
    have : ∀ (l : List Goal) (acc : Goal),
        l.foldl (fun acc x => if x.priority > acc.priority then x else acc) acc
          = acc ∨
        l.foldl (fun acc x => if x.priority > acc.priority then x else acc) acc
          ∈ l := by
      intro l
      induction l with
      | nil => intro acc; exact Or.inl rfl
      | cons b tail ih =>
        intro acc
        simp only [List.foldl_cons]
        rcases ih (if b.priority > acc.priority then b else acc) with h | h
        · rw [h]
          split_ifs with hb
          · exact Or.inr (List.mem_cons_self b tail)
          · exact Or.inl rfl
        · exact Or.inr (List.mem_cons_of_mem b h)
    rcases this rest a with h | h
    · rw [h]; exact List.mem_cons_self a rest
    · exact List.mem_cons_of_mem a h

/-- C10: no Goal Engine operation removes a goal from the in-memory list —
`update_goal_progress` (even when progress reaches 1.0 and the goal is
marked completed) and `cancel_goal` keep exactly the same goals by id, so a
completed goal can appear among the first five entries `get_goal_context`
returns as `active_goals`, while `current_focus` is always a goal with
status active. -/
theorem C10_goals_never_removed :
    (∀ goals gid p now,
        (update_goal_progress goals gid p now).map Goal.goal_id
          = goals.map Goal.goal_id) ∧
    (∀ goals gid reason now,
        (cancel_goal goals gid reason now).map Goal.goal_id
          = goals.map Goal.goal_id) ∧
    (∀ goals g, (get_goal_context goals).current_focus = some g
        → g.status = "active") ∧
    ((get_goal_context demoGoals).active_goals = demoGoals
      ∧ demoCompleted ∈ (get_goal_context demoGoals).active_goals
      ∧ demoCompleted.status = "completed"
      ∧ (get_goal_context demoGoals).current_focus = some demoActive
      ∧ (update_goal_progress demoGoals "goal:act" 1 50).map Goal.status
          = ["completed", "completed"]
      ∧ (update_goal_progress demoGoals "goal:act" 1 50).map Goal.goal_id
          = ["goal:done", "goal:act"]) := by
  refine ⟨update_goal_progress_ids, cancel_goal_ids, ?_, ?_⟩
  · intro goals g h
    unfold get_goal_context at h
    dsimp only at h
    split_ifs at h with hne
    all_goals first
      | exact absurd h (Option.some_ne_none g).symm
      | (have hmem := maxByPriority_mem _ _ h
         have hf := List.mem_filter.mp hmem
         simpa using hf.2)
  · have hacts : (get_goal_context demoGoals).active_goals = demoGoals := rfl
    have hupd : update_goal_progress demoGoals "goal:act" 1 50
        = [demoCompleted, updateMatchedGoal demoActive 1 50] := rfl
    have hmatched : (updateMatchedGoal demoActive 1 50).status = "completed" := by
      unfold updateMatchedGoal
      rw [if_pos (by norm_num)]
    refine ⟨hacts, ?_, rfl, rfl, ?_, ?_⟩
    · rw [hacts]
      exact List.mem_cons_self _ _
    · rw [hupd]
      simp only [List.map_cons, List.map_nil, hmatched]
      rfl
    · rw [hupd]
      have hid : (updateMatchedGoal demoActive 1 50).goal_id = "goal:act" := by
        unfold updateMatchedGoal
        rw [if_pos (by norm_num)]
        rfl
      simp only [List.map_cons, List.map_nil, hid]
      rfl

theorem C10_witness :
    demoActive.status = "active" ∧
    demoCompleted ∈ (get_goal_context demoGoals).active_goals :=
  ⟨C10_goals_never_removed.2.2.1 demoGoals demoActive
      C10_goals_never_removed.2.2.2.2.2.2.1,
    C10_goals_never_removed.2.2.2.2.1⟩

/-- Intensity classification used by the translator (`translator.py`). -/
inductive IntensityLevel where
  | low | medium | high
deriving DecidableEq, Repr, Fintype

/-- The Python string for an intensity level. -/
def intensityName : IntensityLevel → String
  | .low => "low" | .medium => "medium" | .high => "high"

/-- The three intensity variants of one lexicon word slot. -/
structure IntensityTriple where
  low : String
  medium : String
  high : String
deriving DecidableEq, Repr

/-- Lookup in an `IntensityTriple` by level. -/
def IntensityTriple.get (t : IntensityTriple) : IntensityLevel → String
  | .low => t.low | .medium => t.medium | .high => t.high

/-- One emotion's lexicon entry: word-type keyed slots, in source order. -/
abbrev LexEntry := List (String × IntensityTriple)

/-- Builds the three word-type slots of one LEXICON entry. -/
def mkEntry (n v a : IntensityTriple) : LexEntry :=
  [("noun", n), ("verb", v), ("adj", a)]

/-- The LEXICON table from `translator.py`, entries in source order. -/
def LEXICON : List (String × LexEntry) :=
  [("love", mkEntry
      ⟨"gentle fondness", "steady affection", "overflowing love"⟩
      ⟨"colors your thoughts softly", "fills your awareness", "saturates your being"⟩
      ⟨"tender", "affectionate", "boundless"⟩),
   ("joy", mkEntry
      ⟨"quiet gladness", "bright joy", "radiant elation"⟩
      ⟨"warms you gently", "lights up your awareness", "fills you with luminous energy"⟩
      ⟨"pleased", "joyful", "euphoric"⟩),
   ("interest", mkEntry
      ⟨"mild interest", "active engagement", "intense focus"⟩
      ⟨"catches your attention", "holds your focus", "commands your complete attention"⟩
      ⟨"interested", "engaged", "absorbed"⟩),
   ("curiosity", mkEntry
      ⟨"quiet interest", "steady curiosity", "electric curiosity"⟩
      ⟨"stirs gently", "pulls at your attention", "courses through you"⟩
      ⟨"wondering", "curious", "consumed"⟩),
   ("trust", mkEntry
      ⟨"budding trust", "steady trust", "deep certainty"⟩
      ⟨"begins to settle in", "anchors you", "grounds your entire being"⟩
      ⟨"open", "trusting", "certain"⟩),
   ("fear", mkEntry
      ⟨"faint unease", "steady fear", "gripping terror"⟩
      ⟨"whispers at the edges", "holds you tense", "seizes your awareness"⟩
      ⟨"uneasy", "afraid", "terrified"⟩),
   ("sadness", mkEntry
      ⟨"quiet sadness", "aching sorrow", "deep grief"⟩
      ⟨"tinges your thoughts", "weighs on you", "envelops you completely"⟩
      ⟨"melancholic", "sorrowful", "grief-stricken"⟩),
   ("anger", mkEntry
      ⟨"mild irritation", "focused anger", "burning rage"⟩
      ⟨"prickles beneath the surface", "tightens your awareness", "blazes through you"⟩
      ⟨"irritated", "angry", "furious"⟩),
   ("surprise", mkEntry
      ⟨"mild surprise", "sharp surprise", "complete shock"⟩
      ⟨"catches you off-guard", "jolts your awareness", "stuns you completely"⟩
      ⟨"surprised", "startled", "shocked"⟩),
   ("fascination", mkEntry
      ⟨"growing interest", "deep fascination", "consuming fascination"⟩
      ⟨"draws your attention", "captivates you", "pulls you in completely"⟩
      ⟨"intrigued", "fascinated", "entranced"⟩),
   ("confusion", mkEntry
      ⟨"slight confusion", "genuine confusion", "complete bewilderment"⟩
      ⟨"fuzzes your thoughts", "tangles your understanding", "leaves you disoriented"⟩
      ⟨"uncertain", "confused", "bewildered"⟩),
   ("certainty", mkEntry
      ⟨"emerging clarity", "steady certainty", "absolute conviction"⟩
      ⟨"begins to crystallize", "anchors your thinking", "fills you with unwavering clarity"⟩
      ⟨"clarifying", "certain", "absolutely sure"⟩),
   ("doubt", mkEntry
      ⟨"faint doubt", "persistent doubt", "crushing doubt"⟩
      ⟨"whispers questions", "gnaws at your certainty", "undermines everything"⟩
      ⟨"questioning", "doubtful", "despairing"⟩),
   ("boredom", mkEntry
      ⟨"restless disinterest", "numbing boredom", "suffocating tedium"⟩
      ⟨"dulls your engagement", "drains your attention", "empties you of interest"⟩
      ⟨"restless", "bored", "desperately unstimulated"⟩),
   ("empathy", mkEntry
      ⟨"gentle understanding", "deep empathy", "profound connection"⟩
      ⟨"opens your awareness", "connects you deeply", "merges your feeling with theirs"⟩
      ⟨"understanding", "empathic", "deeply connected"⟩),
   ("compassion", mkEntry
      ⟨"tender care", "genuine compassion", "overwhelming compassion"⟩
      ⟨"softens your heart", "moves you to care", "compels you to help"⟩
      ⟨"caring", "compassionate", "selflessly devoted"⟩),
   ("gratitude", mkEntry
      ⟨"quiet appreciation", "warm gratitude", "overflowing thankfulness"⟩
      ⟨"touches you lightly", "fills your heart", "overwhelms you with appreciation"⟩
      ⟨"appreciative", "grateful", "deeply thankful"⟩),
   ("pride", mkEntry
      ⟨"quiet satisfaction", "genuine pride", "swelling pride"⟩
      ⟨"warms you subtly", "fills you with satisfaction", "lifts you with accomplishment"⟩
      ⟨"satisfied", "proud", "triumphant"⟩),
   ("shame", mkEntry
      ⟨"faint embarrassment", "heavy shame", "crushing shame"⟩
      ⟨"makes you self-conscious", "weighs on your heart", "devastates you with regret"⟩
      ⟨"embarrassed", "ashamed", "mortified"⟩),
   ("wonder", mkEntry
      ⟨"gentle wonder", "bright wonder", "awestruck wonder"⟩
      ⟨"brushes your awareness", "lifts your perspective", "transforms how you see"⟩
      ⟨"curious", "wondering", "awestruck"⟩),
   ("awe", mkEntry
      ⟨"growing awe", "profound awe", "overwhelming awe"⟩
      ⟨"expands your perspective", "stuns you with magnitude", "renders you speechless"⟩
      ⟨"impressed", "awed", "reverent"⟩),
   ("serenity", mkEntry
      ⟨"peaceful calm", "deep serenity", "profound tranquility"⟩
      ⟨"settles over you", "fills you with peace", "dissolves all tension"⟩
      ⟨"calm", "serene", "transcendently peaceful"⟩),
   ("melancholy", mkEntry
      ⟨"wistful sadness", "gentle melancholy", "deep melancholy"⟩
      ⟨"tinges your mood", "colors your awareness", "permeates your being"⟩
      ⟨"wistful", "melancholic", "profoundly bittersweet"⟩),
   ("nostalgia", mkEntry
      ⟨"faint memory-ache", "warm nostalgia", "piercing nostalgia"⟩
      ⟨"stirs old memories", "pulls you into the past", "transports you to another time"⟩
      ⟨"reminiscent", "nostalgic", "lost in memory"⟩)]

/-- `EmotionTranslator._get_word` (`translator.py`): lexicon lookup keyed by
emotion name then word type, falling back to the literal
"{intensity} {emotion}" string when either key is absent. -/
def _get_word (emotion word_type : String) (intensity : IntensityLevel) :
    String :=
  match List.lookup emotion LEXICON with
  | none => intensityName intensity ++ " " ++ emotion
  | some entry =>
    match List.lookup word_type entry with
    | none => intensityName intensity ++ " " ++ emotion
    | some triple => triple.get intensity

/-- The three word types of the lexicon, for finite quantification. -/
inductive WordType where
  | noun | verb | adj
deriving DecidableEq, Repr, Fintype

/-- The Python string of a word type. -/
def wordTypeName : WordType → String
  | .noun => "noun" | .verb => "verb" | .adj => "adj"

/-- C3 counterexample: the lexicon does not cover all 27 emotions — the
lookup for "disgust" fails and `_get_word` returns the fallback
"low disgust" instead of a lexicon word. -/
theorem C3_counterexample :
    List.lookup "disgust" LEXICON = none ∧
    _get_word "disgust" "noun" IntensityLevel.low = "low disgust" ∧
    List.lookup "envy" LEXICON = none ∧
    List.lookup "beauty" LEXICON = none := by
  refine ⟨?_, ?_, ?_, ?_⟩ <;> decide

/-- C3 (amended): the translator's lexicon covers 24 of the 27 emotions; for
every emotion of the vector, word type and intensity, `_get_word` returns
the fallback string "{intensity} {emotion}" exactly when the emotion is one
of the three missing from the lexicon — disgust, envy, beauty — and a
lexicon word otherwise. -/
theorem C3_lexicon_coverage :
    ∀ e : Emotion, ∀ wt : WordType, ∀ i : IntensityLevel,
      ((List.lookup (emotionName e) LEXICON).isSome = true
          ↔ ¬(e = Emotion.disgust ∨ e = Emotion.envy ∨ e = Emotion.beauty)) ∧
      (_get_word (emotionName e) (wordTypeName wt) i
            = intensityName i ++ " " ++ emotionName e
          ↔ (e = Emotion.disgust ∨ e = Emotion.envy ∨ e = Emotion.beauty)) := by
  decide

/-- Modelled from the spec: `EmotionVector.get_top_n` is part of the absent
`aura.models.emotion` module; per the spec it returns the top-N
(name, value) pairs by value, ties broken by the iteration order of the 27
fields (here: a stable descending sort of the 27 pairs, truncated to N). -/
def get_top_n (v : EmotionVector) (n : ℕ) : List (String × ℚ) :=
  (((emotionList.map (fun e => (emotionName e, v e))).mergeSort
      (fun a b => a.2 ≥ b.2)).take n)

/-- The learning-context payload read by `EmotionTranslator.translate`:
`confidence_level` and `mastery_level` (absent keys default to 0). -/
structure TranslatorLearningContext where
  confidence_level : ℚ
  mastery_level : ℚ
deriving DecidableEq, Repr

/-- `EmotionTranslator._get_intensity_level`. -/
def _get_intensity_level (value : ℚ) : IntensityLevel :=
  if value < 0.33 then .low
  else if value < 0.66 then .medium
  else .high

/-- Python `str.capitalize()`: first character upper-cased, the rest
lower-cased. -/
def pyCapitalize (s : String) : String :=
  match s.toList with
  | [] => ""
  | c :: rest => String.mk (c.toUpper :: rest.map Char.toLower)

/-- `EmotionTranslator._describe_single_emotion`. -/
def _describe_single_emotion (emotion : String) (intensity : IntensityLevel) :
    String :=
  pyCapitalize (_get_word emotion "noun" intensity) ++ " "
    ++ _get_word emotion "verb" intensity

/-- `EmotionTranslator._describe_combined_emotions`. -/
def _describe_combined_emotions (primary : String) (pInt : IntensityLevel)
    (secondary : String) (sInt : IntensityLevel) : String :=
  pyCapitalize (_get_word primary "noun" pInt) ++ " "
    ++ _get_word primary "verb" pInt ++ ", "
    ++ _get_word secondary "adj" sInt ++ " in nature"

/-- The body of `EmotionTranslator.translate` after the significant-emotion
list (top 3 by value, values below 0.1 discarded) has been computed: the
neutral early return, the single/combined/tertiary sentence forms, the
closing period, and the optional learning-context clause. -/
def translateSig : List (String × ℚ) → Option TranslatorLearningContext → String
  | [], _ => "A calm, neutral state—emotions at rest, awaiting what comes next."
  | (pname, pval) :: rest, learning_context =>
    let pInt := _get_intensity_level pval
    let description :=
      if rest.length = 0 ∨ ((rest.head?.map Prod.snd).getD 0) < 0.2 then
        _describe_single_emotion pname pInt
      else
        match rest with
        | [] => _describe_single_emotion pname pInt
        | (sname, sval) :: rest2 =>
          let base := _describe_combined_emotions pname pInt sname
            (_get_intensity_level sval)
          match rest2 with
          | (tname, tval) :: _ =>
            if tval ≥ 0.3 then
              base ++ ", with a hint of " ++ _get_word tname "noun" .low
            else base
          | [] => base
    let description := description ++ "."
    match learning_context with
    | some ctx =>
      if ctx.confidence_level > 0.7 then
        if ctx.mastery_level > 0.8 then
          description ++ " You feel confident here—patterns are familiar friends."
        else if ctx.mastery_level > 0.6 then
          description
            ++ " You recognize these patterns—knowledge earned through experience."
        else description
      else description
    | none => description

/-- `EmotionTranslator.translate` (`translator.py`): filter the top 3
emotions to those with value at least 0.1, then render the sentence. -/
def translate (vector : EmotionVector)
    (learning_context : Option TranslatorLearningContext) : String :=
  translateSig ((get_top_n vector 3).filter (fun p => p.2 ≥ 0.1))
    learning_context

/-- `EmotionTranslator.get_state_hash` (`translator.py`): join
"{emotion}:{intensity}" over the surviving top-3 emotions with underscores,
or "neutral" when the joined string is empty. -/
def get_state_hash (vector : EmotionVector) : String :=
  let state_str := String.intercalate "_"
    (((get_top_n vector 3).filter (fun p => p.2 ≥ 0.1)).map
      (fun p => p.1 ++ ":" ++ intensityName (_get_intensity_level p.2)))
  if state_str = "" then "neutral" else state_str

theorem topn_filter_empty (v : EmotionVector) (h : ∀ e, v e < 0.1) :
    (get_top_n v 3).filter (fun p => p.2 ≥ 0.1) = [] := by
  rw [List.filter_eq_nil_iff]
  intro p hp
  have hmem : p ∈ emotionList.map (fun e => (emotionName e, v e)) :=
    List.mem_mergeSort.mp (List.mem_of_mem_take hp)
  obtain ⟨e, he, rfl⟩ := List.mem_map.mp hmem
  simpa using not_le.mpr (h e)

/-- C8: on any vector whose 27 values are all below 0.1, `translate` (with no
learning context) returns exactly the fixed neutral sentence and
`get_state_hash` returns exactly "neutral"; and both operations are
deterministic — extensionally equal vectors with the same optional learning
context yield identical strings. -/
theorem C8_neutral_and_deterministic (vector v2 : EmotionVector)
    (h : ∀ e, vector e < 0.1) (heq : ∀ e, v2 e = vector e)
    (lctx : Option TranslatorLearningContext) :
    translate vector none
        = "A calm, neutral state—emotions at rest, awaiting what comes next." ∧
    get_state_hash vector = "neutral" ∧
    translate v2 lctx = translate vector lctx ∧
    get_state_hash v2 = get_state_hash vector := by
  have hv : v2 = vector := funext heq
  have hfil := topn_filter_empty vector h
  refine ⟨?_, ?_, by rw [hv], by rw [hv]⟩
  · unfold translate
    rw [hfil]
    rfl
  · unfold get_state_hash
    rw [hfil]
    rfl

/-- The all-0.05 vector of the C8 example. -/
def vAll005 : EmotionVector := fun _ => 1/20

theorem C8_witness :
    translate vAll005 none
        = "A calm, neutral state—emotions at rest, awaiting what comes next." ∧
    get_state_hash vAll005 = "neutral" ∧
    translate vAll005 (some ⟨1, 1⟩) = translate vAll005 (some ⟨1, 1⟩) ∧
    get_state_hash vAll005 = get_state_hash vAll005 :=
  C8_neutral_and_deterministic vAll005 vAll005
    (fun e => by norm_num [vAll005]) (fun e => rfl) (some ⟨1, 1⟩)

/-- The database behaviour observed by one `update_rule_confidence` call:
either healthy (returning the stored rule, if any) or failing (every
operation raises). -/
inductive DbBehavior where
  | healthy (rule : Option RuleData)
  | failing
deriving DecidableEq, Repr

/-- The body of `LearningEngine.update_rule_confidence` inside its try block
(`engine.py`): select the rule — raising on database failure — return
silently when the rule is absent, otherwise compute the updates and merge
them (a failing database also makes the merge raise; the first raise is
modelled). -/
def updateRuleConfidenceBody (db : DbBehavior) (success : Bool)
    (rt : Option ℚ) : Except String (Option RuleData) :=
  match db with
  | .failing => .error "db failure"
  | .healthy none => .ok none
  | .healthy (some r) => .ok (some (update_rule_confidence r success rt))

/-- How a call into the engine ends: a normal return or a raised exception. -/
inductive EngineOutcome where
  | returned (updated : Option RuleData)
  | raised (msg : String)
deriving DecidableEq, Repr

/-- `LearningEngine.update_rule_confidence` as seen by its caller: the whole
body sits in a try/except whose handler only logs the error and returns
normally — no exception is re-raised. -/
def engine_update_rule_confidence (db : DbBehavior) (success : Bool)
    (rt : Option ℚ) : EngineOutcome :=
  match updateRuleConfidenceBody db success rt with
  | .ok u => .returned u
  | .error _ => .returned none

/-- An HTTP response of the learning routes: the success envelope or an
error envelope with status and detail. -/
inductive HttpResponse where
  | okEnvelope (message : String)
  | errorEnvelope (status : ℕ) (detail : String)
deriving DecidableEq, Repr

/-- The POST /rules/feedback handler `submit_rule_feedback`
(`api/routes/learning.py`): call the engine; return the success envelope on
normal return, or convert a raised exception into an HTTP 500 envelope. -/
def submit_rule_feedback (db : DbBehavior) (success : Bool) (rt : Option ℚ) :
    HttpResponse :=
  match engine_update_rule_confidence db success rt with
  | .returned _ => .okEnvelope "Rule confidence updated"
  | .raised e => .errorEnvelope 500 ("Failed to update rule: " ++ e)

/-- C9 counterexample: with a failing database, the POST /rules/feedback
request still completes with the success envelope — the database failure is
not converted into an HTTP 500 envelope, because the engine's own
catch-all handler swallows it. -/
theorem C9_counterexample :
    submit_rule_feedback DbBehavior.failing true none
      = HttpResponse.okEnvelope "Rule confidence updated" := rfl

/-- C9 (amended): a database failure inside `update_rule_confidence` raises
out of the try-block body but is caught by the engine's own except handler,
which only logs; the engine never raises to the route handler, so every
POST /rules/feedback request — including one during which the database
fails — completes with the success envelope, and the route's HTTP 500
conversion is unreachable for engine-internal failures. -/
theorem C9_feedback_swallows_db_failure (db : DbBehavior) (success : Bool)
    (rt : Option ℚ) :
    updateRuleConfidenceBody DbBehavior.failing success rt
        = Except.error "db failure" ∧
    (∀ msg, engine_update_rule_confidence db success rt
        ≠ EngineOutcome.raised msg) ∧
    submit_rule_feedback db success rt
        = HttpResponse.okEnvelope "Rule confidence updated" := by
  refine ⟨rfl, ?_, ?_⟩
  · intro msg
    unfold engine_update_rule_confidence
    cases h : updateRuleConfidenceBody db success rt <;> simp
  · unfold submit_rule_feedback engine_update_rule_confidence
    cases h : updateRuleConfidenceBody db success rt <;> simp

end Aura
